import Mathlib

/-!
Shallow embedding of the `yae` chat backend (Python/FastAPI/SQLAlchemy over
SQLite), covering the pieces needed by the claims:

* the data model `User` / `Session` / `Message` (src/yae/database/models.py),
  with timestamps modelled as a `Nat` clock carried by the store and UUIDs
  modelled as 128-bit naturals produced by `uuid4`;
* the repository services (src/yae/database/services.py): `UserService` and
  `SessionService`;
* the chat orchestrator (src/yae/routes/chat.py): `post_chat` and its inner
  generator `collect_and_stream`;
* the session-creation route (src/yae/routes/sessions.py).

Modelling conventions:
* the SQLite table is a list of rows in insertion (rowid) order; primary keys
  are assigned from a `next…Id` counter, and Python-side column defaults
  (`get_utc_now`, `uuid.uuid4`) sample the store clock `now` resp. a random
  input `r` at write time; a `Session` row has TWO timestamp columns whose
  defaults each call `get_utc_now` independently at flush time, with nothing
  synchronizing the two calls, so `create_session` receives the two samples
  `t1` (for `created_at`) and `t2` (for `updated_at`) as separate inputs;
* `ORDER BY created_at` is modelled as a stable insertion sort on the
  insertion-ordered table (`List.insertionSort`), and `ORDER BY created_at
  DESC` as a stable insertion sort for the reversed key order;
* `LIMIT n` follows SQLite semantics: a negative limit means "no limit",
  otherwise at most `n` rows are returned;
* async generators become lists of emitted chunks; an agent run that raises
  mid-stream is a list of chunks emitted before the exception plus a `failed`
  flag.
-/

namespace Yae

/-- Role enum from src/yae/database/models.py. -/
inductive Role where
  | user
  | assistant
deriving DecidableEq

/-- Visibility enum from src/yae/database/models.py. -/
inductive Visibility where
  | PUBLIC
  | PRIVATE
  | SECRET
deriving DecidableEq

/-- User row (src/yae/database/models.py, class User). -/
structure User where
  id : Nat
  role : Role
  name : String
  discord_id : Option String
  discord_username : Option String
deriving DecidableEq

/-- Session row (src/yae/database/models.py, class Session).  `external_id` is
the 128-bit UUID value produced by `uuid.uuid4` at creation. -/
structure Session where
  id : Nat
  external_id : Nat
  visibility : Visibility
  created_at : Nat
  updated_at : Nat
  owner_id : Nat
deriving DecidableEq

/-- Message row (src/yae/database/models.py, class Message). -/
structure Message where
  id : Nat
  created_at : Nat
  content : String
  user_id : Nat
  session_id : Nat
deriving DecidableEq

/-- The SQLite database: one list per table, in insertion (rowid) order,
plus the id counters and the wall clock sampled by column defaults. -/
structure Store where
  users : List User
  sessions : List Session
  messages : List Message
  nextUserId : Nat
  nextSessionId : Nat
  nextMessageId : Nat
  now : Nat
deriving DecidableEq

/-- Python `uuid.uuid4()` on 128 random bits `r`: force the RFC 4122 version
nibble (bits 76–79) to `0100` and the variant bits (62–63) to `10`. -/
def uuid4 (r : Nat) : Nat :=
  let x := r % 2 ^ 128
  let x := (x &&& (2 ^ 128 - 1 - 15 * 2 ^ 76)) ||| (4 * 2 ^ 76)
  (x &&& (2 ^ 128 - 1 - 3 * 2 ^ 62)) ||| 2 ^ 63

namespace UserService

/-- UserService.by_id: `SELECT * FROM users WHERE id = user_id` (first row). -/
def by_id (db : Store) (user_id : Nat) : Option User :=
  db.users.find? (fun u => u.id == user_id)

/-- UserService.by_discord: `SELECT * FROM users WHERE discord_id = d`. -/
def by_discord (db : Store) (d : String) : Option User :=
  db.users.find? (fun u => u.discord_id == some d)

/-- UserService.create_user: insert a row, id assigned by the store,
defaults as in the model (`role=USER`, discord fields `None`able). -/
def create_user (db : Store) (name : String) (role : Role := Role.user)
    (discord_id : Option String := none) (discord_username : Option String := none) :
    User × Store :=
  let user : User :=
    { id := db.nextUserId
      role := role
      name := name
      discord_id := discord_id
      discord_username := discord_username }
  (user, { db with users := db.users ++ [user], nextUserId := db.nextUserId + 1 })

/-- UserService.update_user: fetch by id; if absent return `None`; otherwise
assign exactly the fields whose argument is not `None`, then commit. -/
def update_user (db : Store) (user_id : Nat) (name : Option String)
    (role : Option Role) (discord_id : Option String)
    (discord_username : Option String) : Option User × Store :=
  match by_id db user_id with
  | none => (none, db)
  | some user =>
    let user := match name with
      | some n => { user with name := n }
      | none => user
    let user := match role with
      | some r => { user with role := r }
      | none => user
    let user := match discord_id with
      | some d => { user with discord_id := some d }
      | none => user
    let user := match discord_username with
      | some d => { user with discord_username := some d }
      | none => user
    (some user,
      { db with users := db.users.map (fun u => if u.id == user_id then user else u) })

end UserService

/-- Ascending `ORDER BY created_at` comparison. -/
def createdLe (a b : Message) : Prop := a.created_at ≤ b.created_at

/-- Descending `ORDER BY created_at DESC` comparison. -/
def createdGe (a b : Message) : Prop := b.created_at ≤ a.created_at

instance : DecidableRel createdLe :=
  fun a b => inferInstanceAs (Decidable (a.created_at ≤ b.created_at))

instance : DecidableRel createdGe :=
  fun a b => inferInstanceAs (Decidable (b.created_at ≤ a.created_at))

instance : IsTotal Message createdLe :=
  ⟨fun a b => Nat.le_total a.created_at b.created_at⟩

instance : IsTrans Message createdLe :=
  ⟨fun _ _ _ h1 h2 => Nat.le_trans h1 h2⟩

instance : IsTotal Message createdGe :=
  ⟨fun a b => Nat.le_total b.created_at a.created_at⟩

instance : IsTrans Message createdGe :=
  ⟨fun _ _ _ h1 h2 => Nat.le_trans h2 h1⟩

/-- An assistant reply handed to the background task: an ORM `Message` object
constructed without id/timestamp (those are assigned at flush time by
`add_messages`). Mirrors `Message(content=…, user_id=…, session_id=…)` in
src/yae/routes/chat.py. -/
structure MessageDraft where
  content : String
  user_id : Nat
  session_id : Nat
deriving DecidableEq

namespace SessionService

/-- SessionService.by_id. -/
def by_id (db : Store) (session_id : Nat) : Option Session :=
  db.sessions.find? (fun s => s.id == session_id)

/-- SessionService.by_uuid: lookup by `external_id`. -/
def by_uuid (db : Store) (uuid : Nat) : Option Session :=
  db.sessions.find? (fun s => s.external_id == uuid)

/-- SessionService.add_message: construct the row (id and `created_at`
assigned at commit/refresh), insert, commit, and return it.  The source
performs no existence check on `user` or `session`. -/
def add_message (db : Store) (content : String) (session : Session)
    (user : User) : Option Message × Store :=
  let message : Message :=
    { id := db.nextMessageId
      created_at := db.now
      content := content
      user_id := user.id
      session_id := session.id }
  (some message,
    { db with
        messages := db.messages ++ [message]
        nextMessageId := db.nextMessageId + 1 })

/-- SessionService.add_messages: batch insert used by the deferred
background task; ids and timestamps are assigned at flush time. -/
def add_messages (db : Store) (drafts : List MessageDraft) : Store :=
  drafts.foldl
    (fun acc d =>
      { acc with
          messages := acc.messages ++
            [{ id := acc.nextMessageId
               created_at := acc.now
               content := d.content
               user_id := d.user_id
               session_id := d.session_id }]
          nextMessageId := acc.nextMessageId + 1 })
    db

/-- SessionService.get_messages:
`SELECT … WHERE session_id = ? ORDER BY created_at`. -/
def get_messages (db : Store) (session_id : Nat) : List Message :=
  List.insertionSort createdLe (db.messages.filter (fun m => m.session_id == session_id))

/-- SessionService.get_last_messages:
`SELECT … WHERE session_id = ? ORDER BY created_at DESC LIMIT n`, then the
Python list is reversed. `n` is a Python int; SQLite treats a negative
`LIMIT` as "no limit". -/
def get_last_messages (db : Store) (session_id : Nat) (n : Int) : List Message :=
  let sorted :=
    List.insertionSort createdGe (db.messages.filter (fun m => m.session_id == session_id))
  let limited := if n < 0 then sorted else sorted.take n.toNat
  limited.reverse

/-- SessionService.create_session: `SELECT` the owner by id; if absent return
`None` without touching the store; otherwise insert the session row with
column defaults and return it.  `external_id = uuid4 r`; the `created_at`
and `updated_at` defaults are two separate `get_utc_now()` calls that the
program never synchronizes, so they are modelled as two independent clock
samples `t1` and `t2` (the wall clock may or may not tick between them). -/
def create_session (db : Store) (owner_id : Nat)
    (visibility : Visibility) (r t1 t2 : Nat) : Option Session × Store :=
  match db.users.find? (fun u => u.id == owner_id) with
  | none => (none, db)
  | some _ =>
    let session : Session :=
      { id := db.nextSessionId
        external_id := uuid4 r
        visibility := visibility
        created_at := t1
        updated_at := t2
        owner_id := owner_id }
    (some session,
      { db with
          sessions := db.sessions ++ [session]
          nextSessionId := db.nextSessionId + 1 })

end SessionService

/-- An agent run (src/yae/agents/__init__.py, run_text_agent /
run_voice_agent): the chunks the model-completion collaborator emits, and
whether it raises an exception after emitting them. -/
structure AgentRun where
  chunks : List String
  failed : Bool
deriving DecidableEq

/-- What the chat endpoint hands back: a streaming body (list of emitted
chunks) or a hard HTTP error.  src/yae/routes/chat.py only ever builds
`StreamingResponse`s. -/
inductive ChatResponse where
  | streaming (chunks : List String)
  | httpError (status : Nat)
deriving DecidableEq

/-- Modelled from the spec: `stream_text` is referenced as
`yae.utils.stream_text` by src/yae/routes/chat.py but is absent from
src/yae/utils.py; per the spec the resulting stream "yields exactly one
chunk equal to the fixed … text". -/
def stream_text (s : String) : List String := [s]

/-- Python `str.strip()`: drop leading and trailing whitespace. -/
def strip (s : String) : String :=
  ⟨((s.data.dropWhile Char.isWhitespace).reverse.dropWhile Char.isWhitespace).reverse⟩

/-- The inner generator `collect_and_stream` of src/yae/routes/chat.py:
relay each chunk while accumulating `full_response`; on normal completion
build the assistant `Message` draft (hardcoded `user_id=1`, the stripped
accumulator as content) and schedule it; if the agent raises, emit the fixed
failure chunk instead and schedule nothing. -/
def collect_and_stream (run : AgentRun) (session_id : Nat) :
    List String × Option MessageDraft :=
  let full_response := run.chunks.foldl (fun acc c => acc ++ c) ""
  if run.failed then
    (run.chunks ++ ["There is something wrong with my AI!"], none)
  else
    (run.chunks,
      some { content := strip full_response
             user_id := 1
             session_id := session_id })

/-- Result of one `POST /chat` request, including what the orchestrator
submitted to the agent (`prompt` and `history`), the draft handed to the
background task (if any), and the store after the request and any
background persistence ran. -/
structure ChatOutcome where
  response : ChatResponse
  submitted : Option (Message × List Message)
  scheduled : Option MessageDraft
  db : Store
deriving DecidableEq

/-- The `post_chat` handler of src/yae/routes/chat.py: resolve sender by
discord identifier and session by external UUID (informational single-chunk
streams when unresolved), fetch the last-10 history, append the user's
message, run the agent via `collect_and_stream`, and let the scheduled
background task (`save_messages` → `add_messages`) persist the reply. -/
def post_chat (db : Store) (identifier : String) (session_uuid : Nat)
    (content : String) (run : AgentRun) : ChatOutcome :=
  match UserService.by_discord db identifier with
  | none =>
    { response := .streaming (stream_text "You are not registered!")
      submitted := none, scheduled := none, db := db }
  | some user =>
    match SessionService.by_uuid db session_uuid with
    | none =>
      { response := .streaming (stream_text "No valid session found!")
        submitted := none, scheduled := none, db := db }
    | some session =>
      let history := SessionService.get_last_messages db session.id 10
      match SessionService.add_message db content session user with
      | (none, db1) =>
        { response := .streaming (stream_text "There is something wrong with your message!")
          submitted := none, scheduled := none, db := db1 }
      | (some prompt, db1) =>
        let out := collect_and_stream run session.id
        let db2 := match out.2 with
          | some draft => SessionService.add_messages db1 [draft]
          | none => db1
        { response := .streaming out.1
          submitted := some (prompt, history)
          scheduled := out.2
          db := db2 }

/-- Response body of `POST /sessions` (src/yae/routes/sessions.py,
SessionResponse). -/
structure SessionResponse where
  uuid : Nat
  created_at : Nat
  updated_at : Nat
  owner : String
deriving DecidableEq

/-- The `create_session` route of src/yae/routes/sessions.py: 404 when the
identifier is unresolved, 500 when the service declines, otherwise the
response built from the fresh session row. -/
def create_session_route (db : Store) (identifier : String)
    (visibility : Visibility) (r t1 t2 : Nat) : Except Nat (SessionResponse × Store) :=
  match UserService.by_discord db identifier with
  | none => .error 404
  | some user =>
    match SessionService.create_session db user.id visibility r t1 t2 with
    | (none, _) => .error 500
    | (some session, db1) =>
      .ok ({ uuid := session.external_id
             created_at := session.created_at
             updated_at := session.updated_at
             owner := user.name }, db1)

/-! Concrete sample data used to instantiate the theorems. -/

/-- Sample regular user, external (discord) identifier `"d1"`. -/
def sampleUser : User :=
  { id := 1, role := Role.user, name := "U", discord_id := some "d1", discord_username := none }

/-- Sample ASSISTANT-role user holding id 2 (not id 1). -/
def sampleAssistant : User :=
  { id := 2, role := Role.assistant, name := "Yae", discord_id := some "y", discord_username := none }

/-- Sample session owned by `sampleUser`, external UUID value 42. -/
def sampleSession : Session :=
  { id := 1, external_id := 42, visibility := Visibility.PUBLIC,
    created_at := 0, updated_at := 0, owner_id := 1 }

/-- Sample store with the two users and one empty session. -/
def sampleDb : Store :=
  { users := [sampleUser, sampleAssistant], sessions := [sampleSession],
    messages := [], nextUserId := 3, nextSessionId := 2, nextMessageId := 1, now := 7 }

/-- Two messages in the same session sharing one creation timestamp. -/
def tieMsgA : Message := { id := 1, created_at := 5, content := "a", user_id := 1, session_id := 1 }

/-- Second message of the tied pair (later insertion order). -/
def tieMsgB : Message := { id := 2, created_at := 5, content := "b", user_id := 1, session_id := 1 }

/-- Store whose session 1 holds the two timestamp-tied messages. -/
def tieDb : Store := { sampleDb with messages := [tieMsgA, tieMsgB], nextMessageId := 3 }

/-- Two messages with strictly increasing timestamps. -/
def strictMsgA : Message := { id := 1, created_at := 1, content := "a", user_id := 1, session_id := 1 }

/-- Second message, strictly later timestamp. -/
def strictMsgB : Message := { id := 2, created_at := 2, content := "b", user_id := 1, session_id := 1 }

/-- Store whose session 1 holds the two strictly ordered messages. -/
def strictDb : Store := { sampleDb with messages := [strictMsgA, strictMsgB], nextMessageId := 3 }

/-- Store whose session 1 holds a single message. -/
def singleDb : Store := { sampleDb with messages := [tieMsgA], nextMessageId := 2 }

/-- A store with no rows at all. -/
def emptyDb : Store :=
  { users := [], sessions := [], messages := [], nextUserId := 1,
    nextSessionId := 1, nextMessageId := 1, now := 3 }

/-- A user object that exists nowhere in `emptyDb`. -/
def ghostUser : User :=
  { id := 7, role := Role.user, name := "G", discord_id := none, discord_username := none }

/-- A session object that exists nowhere in `emptyDb`. -/
def ghostSession : Session :=
  { id := 9, external_id := 99, visibility := Visibility.PUBLIC,
    created_at := 0, updated_at := 0, owner_id := 7 }

/-! Helper lemmas. -/

/-- Bit 63 (the RFC 4122 variant bit forced to 1) is set in every `uuid4`
value. -/
theorem uuid4_testBit_63 (r : Nat) : (uuid4 r).testBit 63 = true := by
  simp only [uuid4, Nat.testBit_or]
  rw [Nat.testBit_two_pow_self]
  simp

/-- A `uuid4` value is never the nil UUID. -/
theorem uuid4_ne_zero (r : Nat) : uuid4 r ≠ 0 := by
  intro h
  have hb := uuid4_testBit_63 r
  rw [h, Nat.zero_testBit] at hb
  exact Bool.false_ne_true hb

/-- Inserting an element that the comparison places after every element of a
list appends it at the end. -/
theorem orderedInsert_of_forall_not {α : Type} (r : α → α → Prop) [DecidableRel r]
    (a : α) : ∀ (l : List α), (∀ b ∈ l, ¬ r a b) → l.orderedInsert r a = l ++ [a]
  | [], _ => rfl
  | b :: l, h => by
    rw [List.orderedInsert, if_neg (h b (List.mem_cons_self b l)),
      orderedInsert_of_forall_not r a l (fun c hc => h c (List.mem_cons_of_mem b hc))]
    rfl

/-- Stable descending sort of a strictly ascending list reverses it. -/
theorem insertionSort_desc_of_strict :
    ∀ (l : List Message), l.Pairwise (fun a b => a.created_at < b.created_at) →
      List.insertionSort createdGe l = l.reverse
  | [], _ => rfl
  | a :: l, h => by
    rw [List.insertionSort, insertionSort_desc_of_strict l h.of_cons,
      orderedInsert_of_forall_not createdGe a l.reverse ?_, List.reverse_cons]
    intro b hb
    have hab : a.created_at < b.created_at :=
      (List.pairwise_cons.mp h).1 b (List.mem_reverse.mp hb)
    exact fun hle => absurd hab (not_lt.mpr hle)

/-! Claim theorems. -/

/-- C1: when the model-completion collaborator raises after emitting a prefix
of chunks, the caller's stream is exactly that prefix followed by the one
fixed failure chunk, no persistence task is scheduled, and the store ends
exactly as after appending only the user's message — no assistant message is
persisted for the turn. -/
theorem chat_stream_failure_drops_reply (db : Store) (idf : String)
    (uuid : Nat) (content : String) (run : AgentRun) (u : User) (s : Session)
    (hu : UserService.by_discord db idf = some u)
    (hs : SessionService.by_uuid db uuid = some s)
    (hf : run.failed = true) :
    (post_chat db idf uuid content run).response =
      ChatResponse.streaming (run.chunks ++ ["There is something wrong with my AI!"]) ∧
    (post_chat db idf uuid content run).scheduled = none ∧
    (post_chat db idf uuid content run).db =
      (SessionService.add_message db content s u).2 := by
  simp [post_chat, hu, hs, collect_and_stream, hf, SessionService.add_message]

/-- Witness for C1: a concrete failing run on the sample store. -/
theorem chat_stream_failure_drops_reply_witness :
    (post_chat sampleDb "d1" 42 "hello" { chunks := ["Hel"], failed := true }).response =
      ChatResponse.streaming (["Hel"] ++ ["There is something wrong with my AI!"]) ∧
    (post_chat sampleDb "d1" 42 "hello" { chunks := ["Hel"], failed := true }).scheduled = none ∧
    (post_chat sampleDb "d1" 42 "hello" { chunks := ["Hel"], failed := true }).db =
      (SessionService.add_message sampleDb "hello" sampleSession sampleUser).2 :=
  chat_stream_failure_drops_reply sampleDb "d1" 42 "hello"
    { chunks := ["Hel"], failed := true } sampleUser sampleSession
    (by decide) (by decide) rfl

/-- C2: a chat request whose sender identifier or session UUID does not
resolve returns a stream of exactly one chunk equal to the fixed
informational text, leaves the store untouched (nothing persisted or
scheduled), and is a streaming response, never an HTTP error. -/
theorem chat_unresolved_single_chunk (db : Store) (idf : String) (uuid : Nat)
    (content : String) (run : AgentRun)
    (h : UserService.by_discord db idf = none ∨ SessionService.by_uuid db uuid = none) :
    post_chat db idf uuid content run =
      { response := ChatResponse.streaming ["You are not registered!"],
        submitted := none, scheduled := none, db := db } ∨
    post_chat db idf uuid content run =
      { response := ChatResponse.streaming ["No valid session found!"],
        submitted := none, scheduled := none, db := db } := by
  rcases h with h | h
  · left
    simp [post_chat, h, stream_text]
  · cases hu : UserService.by_discord db idf with
    | none =>
      left
      simp [post_chat, hu, stream_text]
    | some u =>
      right
      simp [post_chat, hu, h, stream_text]

/-- Witness for C2: a request naming a session UUID absent from the sample
store. -/
theorem chat_unresolved_single_chunk_witness :
    post_chat sampleDb "d1" 43 "x" { chunks := [], failed := false } =
      { response := ChatResponse.streaming ["No valid session found!"],
        submitted := none, scheduled := none, db := sampleDb } :=
  (chat_unresolved_single_chunk sampleDb "d1" 43 "x" { chunks := [], failed := false }
    (Or.inr (by decide))).resolve_left (by decide)

/-- C7: creating a session for an owner id that resolves to no user returns
`none` and leaves the store exactly unchanged. -/
theorem create_session_missing_owner (db : Store) (owner_id : Nat)
    (vis : Visibility) (r t1 t2 : Nat)
    (h : ∀ u ∈ db.users, u.id ≠ owner_id) :
    SessionService.create_session db owner_id vis r t1 t2 = (none, db) := by
  have hf : db.users.find? (fun u => u.id == owner_id) = none :=
    List.find?_eq_none.mpr (fun u hu => by simpa using h u hu)
  simp [SessionService.create_session, hf]

/-- Witness for C7: owner id 99 resolves to nobody in the sample store. -/
theorem create_session_missing_owner_witness :
    SessionService.create_session sampleDb 99 Visibility.PUBLIC 0 5 6 = (none, sampleDb) :=
  create_session_missing_owner sampleDb 99 Visibility.PUBLIC 0 5 6 (by decide)

/-- C8 counterexample: `add_message` called with an author and a session
that exist nowhere in the (empty) store does not fail with a not-found
signal — it returns the constructed row and inserts it. -/
theorem add_message_ghost_cex :
    emptyDb.users = [] ∧ emptyDb.sessions = [] ∧
    (SessionService.add_message emptyDb "hi" ghostSession ghostUser).1 =
      some { id := 1, created_at := 3, content := "hi", user_id := 7, session_id := 9 } ∧
    (SessionService.add_message emptyDb "hi" ghostSession ghostUser).2.messages ≠ [] := by
  decide

/-- C8 amended: `add_message` performs no existence check and never returns a
not-found signal; for every store and arguments it constructs the message
row, assigns the timestamp and identity at write time, inserts it, and
returns it. -/
theorem add_message_never_notfound (db : Store) (content : String)
    (s : Session) (u : User) :
    ∃ m, (SessionService.add_message db content s u).1 = some m ∧
      m.content = content ∧ m.user_id = u.id ∧ m.session_id = s.id ∧
      m.created_at = db.now ∧ m.id = db.nextMessageId ∧
      (SessionService.add_message db content s u).2.messages = db.messages ++ [m] :=
  ⟨_, rfl, rfl, rfl, rfl, rfl, rfl, rfl⟩

/-- C9 counterexample: the two `get_utc_now()` column defaults for
`created_at` and `updated_at` are evaluated independently and the program
never synchronizes them; when the clock ticks between the two evaluations
(samples 7 then 8) the freshly created session's response has
`created_at ≠ updated_at`, an admissible run the claim forbids. -/
theorem create_session_clock_tick_cex :
    ((create_session_route sampleDb "d1" Visibility.PUBLIC 0 7 8).toOption.map
        (fun p => (p.1.created_at, p.1.updated_at))) = some (7, 8) ∧
    (7 : Nat) ≠ 8 := by
  decide

/-- C9 amended: when the session-creation route resolves its owner, the
response carries a non-nil UUID; its `created_at` and `updated_at` are the
two independent `get_utc_now` default evaluations (in that order), so they
coincide exactly when the clock does not advance between the two calls —
the code itself never enforces their equality. -/
theorem create_session_route_uuid_clock (db : Store) (idf : String)
    (vis : Visibility) (r t1 t2 : Nat) (u : User)
    (h : UserService.by_discord db idf = some u) :
    ∃ resp db1, create_session_route db idf vis r t1 t2 = Except.ok (resp, db1) ∧
      resp.uuid ≠ 0 ∧ resp.created_at = t1 ∧ resp.updated_at = t2 ∧
      (resp.created_at = resp.updated_at ↔ t1 = t2) := by
  have hu : u ∈ db.users := List.mem_of_find?_eq_some h
  cases hf : db.users.find? (fun x => x.id == u.id) with
  | none => exact absurd (List.find?_eq_none.mp hf u hu) (by simp)
  | some v =>
    have heq : create_session_route db idf vis r t1 t2 =
        Except.ok
          ({ uuid := uuid4 r, created_at := t1, updated_at := t2,
             owner := u.name },
           { db with
               sessions := db.sessions ++
                 [{ id := db.nextSessionId, external_id := uuid4 r,
                    visibility := vis, created_at := t1,
                    updated_at := t2, owner_id := u.id }]
               nextSessionId := db.nextSessionId + 1 }) := by
      simp [create_session_route, h, SessionService.create_session, hf]
    exact ⟨_, _, heq, uuid4_ne_zero r, rfl, rfl, Iff.rfl⟩

/-- Witness for C9 (amended): creating a session for the sample user with
the clock not ticking between the two default evaluations. -/
theorem create_session_route_uuid_clock_witness :
    ∃ resp db1,
      create_session_route sampleDb "d1" Visibility.PUBLIC 0 5 5 = Except.ok (resp, db1) ∧
      resp.uuid ≠ 0 ∧ resp.created_at = 5 ∧ resp.updated_at = 5 ∧
      (resp.created_at = resp.updated_at ↔ (5 : Nat) = 5) :=
  create_session_route_uuid_clock sampleDb "d1" Visibility.PUBLIC 0 5 5 sampleUser (by decide)

/-- C10: `update_user` treats a `None` argument as "leave unchanged": each
field is overwritten only when a non-`None` value is passed, every other
field keeps its prior value, and a non-null discord id or discord username
can never become null through `update_user`. -/
theorem update_user_none_leaves_unchanged (db : Store) (uid : Nat)
    (name : Option String) (role : Option Role) (discord_id : Option String)
    (discord_username : Option String) (u : User)
    (h : UserService.by_id db uid = some u) :
    ∃ u2, (UserService.update_user db uid name role discord_id discord_username).1 = some u2 ∧
      u2.id = u.id ∧
      u2.name = name.getD u.name ∧
      u2.role = role.getD u.role ∧
      u2.discord_id = discord_id.or u.discord_id ∧
      u2.discord_username = discord_username.or u.discord_username ∧
      (u.discord_id.isSome → u2.discord_id.isSome) ∧
      (u.discord_username.isSome → u2.discord_username.isSome) := by
  simp only [UserService.update_user, h]
  cases name <;> cases role <;> cases discord_id <;> cases discord_username <;>
    simp [Option.or]

/-- Witness for C10: update only the sample user's name; the discord fields
survive. -/
theorem update_user_none_leaves_unchanged_witness :
    ∃ u2, (UserService.update_user sampleDb 1 (some "N") none none none).1 = some u2 ∧
      u2.id = sampleUser.id ∧
      u2.name = (some "N").getD sampleUser.name ∧
      u2.role = (none : Option Role).getD sampleUser.role ∧
      u2.discord_id = (none : Option String).or sampleUser.discord_id ∧
      u2.discord_username = (none : Option String).or sampleUser.discord_username ∧
      (sampleUser.discord_id.isSome → u2.discord_id.isSome) ∧
      (sampleUser.discord_username.isSome → u2.discord_username.isSome) :=
  update_user_none_leaves_unchanged sampleDb 1 (some "N") none none none sampleUser (by decide)

/-- Every message returned by `get_last_messages` is a row of the store. -/
theorem mem_of_mem_get_last_messages {db : Store} {sid : Nat} {n : Int}
    {m : Message} (h : m ∈ SessionService.get_last_messages db sid n) :
    m ∈ db.messages := by
  simp only [SessionService.get_last_messages] at h
  rw [List.mem_reverse] at h
  have h2 : m ∈ List.insertionSort createdGe
      (db.messages.filter (fun x => x.session_id == sid)) := by
    by_cases hn : n < 0
    · simpa [hn] using h
    · exact List.mem_of_mem_take (by simpa [hn] using h)
  rw [List.mem_insertionSort] at h2
  exact (List.mem_filter.mp h2).1

/-- C3 counterexample: on the sample store the window submitted to the agent
is empty even though the just-appended user message ("hello") is in the
store, so the context window does not include the user's message. -/
theorem chat_context_stale_cex :
    ((post_chat sampleDb "d1" 42 "hello" { chunks := ["ok"], failed := false }).submitted.map
        (fun pr => pr.2)) = some [] ∧
    (∃ m ∈ (post_chat sampleDb "d1" 42 "hello" { chunks := ["ok"], failed := false }).db.messages,
      m.content = "hello") := by
  decide

/-- C3 amended: the orchestrator fetches the last-10 window BEFORE appending
the user's message: the history submitted to the model-completion
collaborator is `get_last_messages` of the pre-request store and (whenever
stored ids are below the id counter) never contains the just-appended
message; that message is submitted separately as the prompt. -/
theorem chat_history_fetched_before_append (db : Store) (idf : String)
    (uuid : Nat) (content : String) (run : AgentRun) (u : User) (s : Session)
    (hu : UserService.by_discord db idf = some u)
    (hs : SessionService.by_uuid db uuid = some s)
    (hwf : ∀ m ∈ db.messages, m.id < db.nextMessageId) :
    ∃ p h, (post_chat db idf uuid content run).submitted = some (p, h) ∧
      h = SessionService.get_last_messages db s.id 10 ∧
      p.content = content ∧ p.id = db.nextMessageId ∧ p ∉ h := by
  refine ⟨{ id := db.nextMessageId, created_at := db.now, content := content,
            user_id := u.id, session_id := s.id },
          SessionService.get_last_messages db s.id 10, ?_, rfl, rfl, rfl, ?_⟩
  · simp [post_chat, hu, hs, SessionService.add_message]
  · intro hmem
    have := hwf _ (mem_of_mem_get_last_messages hmem)
    simp at this

/-- Witness for C3 (amended): the sample request resolves and submits the
pre-append window. -/
theorem chat_history_fetched_before_append_witness :
    ∃ p h,
      (post_chat sampleDb "d1" 42 "hello" { chunks := ["ok"], failed := false }).submitted =
        some (p, h) ∧
      h = SessionService.get_last_messages sampleDb sampleSession.id 10 ∧
      p.content = "hello" ∧ p.id = sampleDb.nextMessageId ∧ p ∉ h :=
  chat_history_fetched_before_append sampleDb "d1" 42 "hello"
    { chunks := ["ok"], failed := false } sampleUser sampleSession
    (by decide) (by decide) (by decide)

/-- C4 counterexample: in a store whose ASSISTANT-role user holds id 2, a
successfully completed stream persists the reply under the hardcoded author
id 1 — no message of the turn is authored by the ASSISTANT-role user — and
the persisted content is the stripped accumulation, not the raw one. -/
theorem chat_reply_author_not_assistant_cex :
    sampleDb.users.find? (fun x => x.role == Role.assistant) = some sampleAssistant ∧
    sampleAssistant.id = 2 ∧
    (post_chat sampleDb "d1" 42 "hello" { chunks := ["Hi "], failed := false }).scheduled =
      some { content := "Hi", user_id := 1, session_id := 1 } ∧
    (∀ m ∈ (post_chat sampleDb "d1" 42 "hello"
        { chunks := ["Hi "], failed := false }).db.messages,
      m.user_id ≠ sampleAssistant.id) ∧
    "Hi" ≠ "Hi " := by
  decide

/-- C4 amended: on successful completion the reply is persisted to the same
session with the stripped accumulated response as content, but it is
authored by the hardcoded user id 1 ("First user is always Yae"), not by a
role lookup. -/
theorem chat_success_persists_hardcoded (db : Store) (idf : String)
    (uuid : Nat) (content : String) (run : AgentRun) (u : User) (s : Session)
    (hu : UserService.by_discord db idf = some u)
    (hs : SessionService.by_uuid db uuid = some s)
    (hf : run.failed = false) :
    (post_chat db idf uuid content run).scheduled =
      some { content := strip (run.chunks.foldl (fun acc c => acc ++ c) ""),
             user_id := 1, session_id := s.id } ∧
    (post_chat db idf uuid content run).db.messages =
      db.messages ++
        [{ id := db.nextMessageId, created_at := db.now, content := content,
           user_id := u.id, session_id := s.id },
         { id := db.nextMessageId + 1, created_at := db.now,
           content := strip (run.chunks.foldl (fun acc c => acc ++ c) ""),
           user_id := 1, session_id := s.id }] := by
  simp [post_chat, hu, hs, SessionService.add_message, collect_and_stream, hf,
    SessionService.add_messages]

/-- Witness for C4 (amended): the sample successful run persists prompt and
stripped reply under author id 1. -/
theorem chat_success_persists_hardcoded_witness :
    (post_chat sampleDb "d1" 42 "hello" { chunks := ["Hi "], failed := false }).scheduled =
      some { content := strip ((["Hi "] : List String).foldl (fun acc c => acc ++ c) ""),
             user_id := 1, session_id := sampleSession.id } ∧
    (post_chat sampleDb "d1" 42 "hello" { chunks := ["Hi "], failed := false }).db.messages =
      sampleDb.messages ++
        [{ id := sampleDb.nextMessageId, created_at := sampleDb.now, content := "hello",
           user_id := sampleUser.id, session_id := sampleSession.id },
         { id := sampleDb.nextMessageId + 1, created_at := sampleDb.now,
           content := strip ((["Hi "] : List String).foldl (fun acc c => acc ++ c) ""),
           user_id := 1, session_id := sampleSession.id }] :=
  chat_success_persists_hardcoded sampleDb "d1" 42 "hello"
    { chunks := ["Hi "], failed := false } sampleUser sampleSession
    (by decide) (by decide) rfl

/-- C5 counterexample: with two messages sharing one creation timestamp,
`get_messages` lists them in insertion order but `get_last_messages 1` is
not the length-1 suffix of that order. -/
theorem list_last_n_tie_cex :
    SessionService.get_messages tieDb 1 = [tieMsgA, tieMsgB] ∧
    SessionService.get_last_messages tieDb 1 1 = [tieMsgA] ∧
    (SessionService.get_messages tieDb 1).drop
      ((SessionService.get_messages tieDb 1).length - 1) = [tieMsgB] ∧
    tieMsgA ≠ tieMsgB := by
  decide

/-- C5 amended: `get_messages` returns the session's messages in
non-decreasing creation-timestamp order, and — provided the session's
timestamps are strictly increasing in insertion order, as successive
committed appends produce — `get_last_messages n` (for `n ≥ 0`) is exactly
the suffix of that order of length `min n total`, oldest-first.  With tied
timestamps the suffix identity can fail (see the counterexample). -/
theorem list_last_n_suffix_of_strict (db : Store) (sid : Nat) (n : Int)
    (hn : 0 ≤ n)
    (hstrict : (db.messages.filter (fun m => m.session_id == sid)).Pairwise
      (fun a b => a.created_at < b.created_at)) :
    (SessionService.get_messages db sid).Pairwise createdLe ∧
    SessionService.get_last_messages db sid n =
      (SessionService.get_messages db sid).drop
        ((SessionService.get_messages db sid).length - n.toNat) ∧
    (SessionService.get_last_messages db sid n).length =
      min n.toNat (SessionService.get_messages db sid).length := by
  have hsorted : List.Sorted createdLe
      (db.messages.filter (fun m => m.session_id == sid)) :=
    hstrict.imp (fun h => Nat.le_of_lt h)
  have hga : SessionService.get_messages db sid =
      db.messages.filter (fun m => m.session_id == sid) :=
    hsorted.insertionSort_eq
  have hgd : SessionService.get_last_messages db sid n =
      ((db.messages.filter (fun m => m.session_id == sid)).reverse.take n.toNat).reverse := by
    simp only [SessionService.get_last_messages,
      insertionSort_desc_of_strict _ hstrict, if_neg (by omega : ¬ n < 0)]
  refine ⟨?_, ?_, ?_⟩
  · rw [hga]
    exact hsorted
  · rw [hgd, hga, List.take_reverse, List.reverse_reverse]
  · rw [hgd, hga]
    simp only [List.length_reverse, List.length_take, List.length_drop]

/-- Witness for C5 (amended): two strictly ordered messages, window 1. -/
theorem list_last_n_suffix_of_strict_witness :
    (SessionService.get_messages strictDb 1).Pairwise createdLe ∧
    SessionService.get_last_messages strictDb 1 1 =
      (SessionService.get_messages strictDb 1).drop
        ((SessionService.get_messages strictDb 1).length - (1 : Int).toNat) ∧
    (SessionService.get_last_messages strictDb 1 1).length =
      min (1 : Int).toNat (SessionService.get_messages strictDb 1).length :=
  list_last_n_suffix_of_strict strictDb 1 1 (by decide) (by decide)

/-- C6 counterexample: on a store holding one message, a negative window is
not empty — SQLite treats a negative `LIMIT` as "no limit", so all messages
come back. -/
theorem list_last_n_negative_cex :
    SessionService.get_last_messages singleDb 1 (-1) = [tieMsgA] ∧
    ([tieMsgA] : List Message) ≠ [] := by
  decide

/-- C6 amended: `get_last_messages` with `n = 0` yields the empty sequence,
but a negative `n` yields ALL of the session's messages (negative `LIMIT`
means "no limit" in SQLite), not the empty sequence. -/
theorem list_last_n_zero_or_negative (db : Store) (sid : Nat) :
    SessionService.get_last_messages db sid 0 = [] ∧
    ∀ n : Int, n < 0 →
      (SessionService.get_last_messages db sid n).length =
        (db.messages.filter (fun m => m.session_id == sid)).length := by
  constructor
  · simp [SessionService.get_last_messages]
  · intro n hn
    simp [SessionService.get_last_messages, hn]

/-- Witness for C6 (amended): one stored message, windows 0 and -1. -/
theorem list_last_n_zero_or_negative_witness :
    SessionService.get_last_messages singleDb 1 0 = [] ∧
    (SessionService.get_last_messages singleDb 1 (-1)).length =
      (singleDb.messages.filter (fun m => m.session_id == 1)).length :=
  ⟨(list_last_n_zero_or_negative singleDb 1).1,
   (list_last_n_zero_or_negative singleDb 1).2 (-1) (by decide)⟩

end Yae
